import Mathlib

/-!
Verification development for the M365 admin TUI script launcher.

The definitions below are a shallow embedding of the two core subsystems:

* the script-metadata extractor `ScriptRegistry._extract_parameters`
  (src/lib/script_registry.py, lines 114-188), including faithful models of
  the three regular expressions it layers over the raw script text;
* the parameter-collection modal validation `ParameterInputModal.on_button_pressed`
  and the pre-population logic of `ParameterInputModal.compose`
  (src/main.py, lines 102-174), the collect/confirm/retry loop of
  `M365AdminTUI.collect_parameters_enhanced` (src/main.py, lines 665-706),
  and the process spawn/classify tail of `M365AdminTUI.execute_script_direct`
  (src/main.py, lines 708-775);
* a small event model of the application-level execution exclusivity
  (src/main.py, lines 284-297, 428-445, 651-663).

Python strings are modelled as `String` / `List Char`; the handful of
character classes used by the regular expressions (`\s`, `\w`, `[A-Z]`)
are modelled at ASCII granularity, which covers every script text the
extractor is specified over.
-/

/-- Python `\s` whitespace class (ASCII part): space, tab, newline,
carriage return, vertical tab, form feed. -/
def isWs (c : Char) : Bool :=
  c == ' ' || c == '\t' || c == '\n' || c == '\r' || c == '\x0b' || c == '\x0c'

/-- Python `\w` word-character class (ASCII part): alphanumerics and underscore. -/
def isWordChar (c : Char) : Bool :=
  c.isAlphanum || c == '_'

/-- Python `str.lower()` on a character list (ASCII). -/
def toLowerList (l : List Char) : List Char :=
  l.map Char.toLower

/-- Python `str.strip()` with no arguments: remove leading and trailing whitespace. -/
def pyStrip (l : List Char) : List Char :=
  ((l.dropWhile isWs).reverse.dropWhile isWs).reverse

/-- Python `str.strip()` lifted to `String`. -/
def pyStripStr (s : String) : String :=
  String.mk (pyStrip s.toList)

/-- Case-insensitive literal match of `pat` against a prefix of the text;
returns the remaining text on success.  Models matching a fixed literal
under `re.IGNORECASE`. -/
def matchCI : List Char → List Char → Option (List Char)
  | [], rest => some rest
  | _ :: _, [] => none
  | p :: ps, c :: cs => if p.toLower == c.toLower then matchCI ps cs else none

/-- Python `pat in text` substring test on character lists. -/
def containsSub (pat : List Char) : List Char → Bool
  | [] => pat.isEmpty
  | c :: cs => pat.isPrefixOf (c :: cs) || containsSub pat cs

/-- Python `pat in text` substring test on strings. -/
def containsStr (text pat : String) : Bool :=
  containsSub pat.toList text.toList

/-- First value bound to key `k` in an association list (Python dict lookup,
faithful when keys are distinct). -/
def lookupStr (k : String) : List (String × String) → Option String
  | [] => none
  | (n, v) :: rest => if n = k then some v else lookupStr k rest

/-- The `ScriptParameter` dataclass of src/lib/script_registry.py, lines 19-27. -/
structure ScriptParameter where
  name : String
  prompt : String
  default : String
  required : Bool
  password : Bool
deriving DecidableEq

/-- The `replacements` table of `ScriptRegistry._param_name_to_prompt`,
src/lib/script_registry.py, lines 175-186. -/
def promptReplacements : List (String × String) :=
  [("Upn", "UPN (User Principal Name)"),
   ("Sku", "SKU"),
   ("Mfa", "MFA"),
   ("Display Name", "Display Name (Full Name)"),
   ("User Principal Name", "User Principal Name (Email)"),
   ("Usage Location", "Usage Location (2-letter country code)"),
   ("Password", "Password (min 8 characters)"),
   ("License Index", "License Index (0 to skip, or number from list)"),
   ("Target User Email", "Target User Email"),
   ("Mailbox Type", "Mailbox Type (All, UserMailbox, SharedMailbox, etc.)")]

/-- Python `re.sub(r'([A-Z])', r' \1', name)`: insert a space before every
ASCII uppercase letter. -/
def spaceCaps : List Char → List Char
  | [] => []
  | c :: cs => if c.isUpper then ' ' :: c :: spaceCaps cs else c :: spaceCaps cs

/-- `ScriptRegistry._param_name_to_prompt`, src/lib/script_registry.py,
lines 169-188: space out capitals, strip, then apply the exact-match
override table. -/
def paramNameToPrompt (nm : List Char) : String :=
  let spaced := String.mk (pyStrip (spaceCaps nm))
  match promptReplacements.find? (fun kv => kv.1 == spaced) with
  | some kv => kv.2
  | none => spaced

/-- Lazy part of the param-block regex: split the text at the first
occurrence of the two-character sequence newline-then-`)`, returning the
text before it.  Models `(.*?)\n\)` with `re.DOTALL`. -/
def splitAtNlParen : List Char → Option (List Char)
  | [] => none
  | '\n' :: ')' :: _ => some []
  | c :: cs => (splitAtNlParen cs).map (fun t => c :: t)

/-- Head of the param-block regex `param\s*\(` under `re.IGNORECASE`:
the literal `param`, then greedy whitespace, then `(`; returns the text
after the opening parenthesis. -/
def paramHead (s : List Char) : Option (List Char) :=
  match matchCI ("param".toList) s with
  | none => none
  | some r =>
    match r.dropWhile isWs with
    | '(' :: r2 => some r2
    | _ => none

/-- `re.search(r'param\s*\((.*?)\n\)', content, re.DOTALL | re.IGNORECASE)`
from `ScriptRegistry._extract_parameters`, src/lib/script_registry.py,
line 119: leftmost start where the head matches and a `\n)` follows;
returns capture group 1. -/
def findParamBlock : List Char → Option (List Char)
  | [] => none
  | c :: cs =>
    match paramHead (c :: cs) with
    | some r2 =>
      match splitAtNlParen r2 with
      | some cap => some cap
      | none => findParamBlock cs
    | none => findParamBlock cs

/-- Zero-width lookahead of the section separator `,\s*(?=\[)`: after the
comma, greedy whitespace must be followed by `[`. -/
def sepLookahead (rest : List Char) : Bool :=
  (rest.dropWhile isWs).head? == some '['

/-- Worker for `splitSections`.  The `skip` flag is set right after a
separator fired, and consumes the separator's `\s*` run (which Python's
`re.split` removes) one character at a time so that the recursion stays
structural. -/
def splitGo : Bool → List Char → List Char → List (List Char)
  | _, [], acc => [acc.reverse]
  | skip, c :: rest, acc =>
    if skip && isWs c then splitGo true rest acc
    else if c == ',' && sepLookahead rest then acc.reverse :: splitGo true rest []
    else splitGo false rest (c :: acc)

/-- `re.split(r',\s*(?=\[)', param_block)` from
`ScriptRegistry._extract_parameters`, src/lib/script_registry.py, line 126. -/
def splitSections (l : List Char) : List (List Char) :=
  splitGo false l []

/-- Tail of the mandatory-attribute regex: the literal `Mandatory` (case
insensitive), `\s*=\s*`, `$`, then a nonempty greedy `\w+` capture. -/
def tryMand (s : List Char) : Option (List Char) :=
  match matchCI ("mandatory".toList) s with
  | none => none
  | some r1 =>
    match r1.dropWhile isWs with
    | '=' :: r3 =>
      match r3.dropWhile isWs with
      | '$' :: r5 =>
        let w := r5.takeWhile isWordChar
        if w = [] then none else some w
      | _ => none
    | _ => none

/-- Greedy `[^)]*` followed by the `Mandatory...` tail: prefer consuming
more non-`)` characters (longest match first, as Python backtracking
does), stopping at the first `)`. -/
def scanRun : List Char → Option (List Char)
  | [] => none
  | c :: cs =>
    if c = ')' then none
    else
      match scanRun cs with
      | some w => some w
      | none => tryMand (c :: cs)

/-- `re.search(r'\[Parameter\([^)]*Mandatory\s*=\s*\$(\w+)', section,
re.IGNORECASE)` from `ScriptRegistry._extract_parameters`,
src/lib/script_registry.py, line 134: leftmost `[Parameter(` whose
following `)`-free run contains the mandatory assignment; returns the
captured word. -/
def findMandatory : List Char → Option (List Char)
  | [] => none
  | c :: cs =>
    match matchCI ("[parameter(".toList) (c :: cs) with
    | some r =>
      match scanRun r with
      | some w => some w
      | none => findMandatory cs
    | none => findMandatory cs

/-- Optional default group `(?:\s*=\s*"?([^",\n]*)"?)?` of the triple
regex: greedy whitespace, `=`, greedy whitespace, an optional opening
quote, then the greedy capture of characters that are not `"`, `,` or
newline. -/
def tryDefault (s : List Char) : Option (List Char) :=
  match s.dropWhile isWs with
  | '=' :: r1 =>
    let r2 := r1.dropWhile isWs
    let r3 := match r2 with
      | '"' :: t => t
      | _ => r2
    some (r3.takeWhile (fun c => c != '"' && c != ',' && c != '\n'))
  | _ => none

/-- One anchored attempt of the triple regex
`\[(\w+)\]\s*\$(\w+)(?:\s*=\s*"?([^",\n]*)"?)?`: `[`, a nonempty word
capture that must be followed immediately by `]`, whitespace, `$`, a
nonempty word capture, then the optional default group (absent group
modelled as the empty capture, matching the `default_value or ""`
normalisation on src/lib/script_registry.py, line 143). -/
def tryTriple (s : List Char) : Option (List Char × List Char × List Char) :=
  match s with
  | '[' :: r1 =>
    let ty := r1.takeWhile isWordChar
    if ty = [] then none
    else
      match r1.dropWhile isWordChar with
      | ']' :: r2 =>
        match r2.dropWhile isWs with
        | '$' :: r3 =>
          let nm := r3.takeWhile isWordChar
          if nm = [] then none
          else some (ty, nm, (tryDefault (r3.dropWhile isWordChar)).getD [])
        | _ => none
      | _ => none
  | _ => none

/-- `re.search(r'\[(\w+)\]\s*\$(\w+)(?:\s*=\s*"?([^",\n]*)"?)?', section)`
from `ScriptRegistry._extract_parameters`, src/lib/script_registry.py,
line 138: leftmost successful anchored attempt. -/
def typeNameMatch : List Char → Option (List Char × List Char × List Char)
  | [] => none
  | c :: cs =>
    match tryTriple (c :: cs) with
    | some t => some t
    | none => typeNameMatch cs

/-- Body of the per-section loop of `ScriptRegistry._extract_parameters`,
src/lib/script_registry.py, lines 128-165: strip the section, skip it if
empty, look for the mandatory attribute, extract the type/name/default
triple (discard the section if it does not match), drop `switch`-typed
declarations, infer `required` from the default only when no mandatory
marker was found, and build the `ScriptParameter`. -/
def parseSection (sec0 : List Char) : Option ScriptParameter :=
  if pyStrip sec0 = [] then none
  else
    match typeNameMatch (pyStrip sec0) with
    | none => none
    | some (ty, nm, df) =>
      if toLowerList ty = "switch".toList then none
      else
        some
          { name := String.mk nm
            prompt := paramNameToPrompt nm
            default := String.mk (pyStrip df)
            required :=
              match findMandatory (pyStrip sec0) with
              | some w => decide (toLowerList w = "true".toList)
              | none => decide (pyStrip df = [])
            password := containsSub ("password".toList) (toLowerList nm) }

/-- The list of raw parameter sections of a script text: the split of the
param block, or no sections when no param block is found
(src/lib/script_registry.py, lines 119-126). -/
def paramSections (content : String) : List (List Char) :=
  match findParamBlock content.toList with
  | none => []
  | some block => splitSections block

/-- `ScriptRegistry._extract_parameters`, src/lib/script_registry.py,
lines 114-167: one appended `ScriptParameter` per section the loop does
not skip. -/
def extract_parameters (content : String) : List ScriptParameter :=
  (paramSections content).filterMap parseSection

/-- Value a parameter resolves to on submission
(`ParameterInputModal.on_button_pressed`, src/main.py, lines 151-156):
the stripped widget entry, replaced by the parameter's default when the
stripped entry is empty and the default is truthy. -/
def resolveValue (entry : String → String) (p : ScriptParameter) : String :=
  if pyStripStr (entry p.name) = "" ∧ p.default ≠ "" then p.default
  else pyStripStr (entry p.name)

/-- Label used for a missing required parameter
(`param.prompt or param.name`, src/main.py, line 159). -/
def promptOrName (p : ScriptParameter) : String :=
  if p.prompt = "" then p.name else p.prompt

/-- The `missing_required` list built by the validation loop
(src/main.py, lines 148-159): the prompt of every parameter whose
resolved value is empty and which is required, in order. -/
def missingRequired (entry : String → String) : List ScriptParameter → List String
  | [] => []
  | p :: rest =>
    if resolveValue entry p = "" ∧ p.required = true then
      promptOrName p :: missingRequired entry rest
    else missingRequired entry rest

/-- The `values` mapping built by the validation loop (src/main.py,
lines 148-162): one entry per parameter whose resolved value is truthy,
in order, modelled as an association list. -/
def resolvedValues (entry : String → String) : List ScriptParameter → List (String × String)
  | [] => []
  | p :: rest =>
    if resolveValue entry p = "" then resolvedValues entry rest
    else (p.name, resolveValue entry p) :: resolvedValues entry rest

/-- Outcome of pressing Execute in the parameter modal
(`ParameterInputModal.on_button_pressed`, src/main.py, lines 145-172):
when some required value is missing the modal notifies with the missing
prompts and stays open (`Except.error`, no state change); otherwise it
dismisses with the resolved value map (`Except.ok`), which the workflow
carries into the confirmation dialog. -/
def validateSubmission (entry : String → String) (params : List ScriptParameter) :
    Except (List String) (List (String × String)) :=
  if missingRequired entry params = [] then Except.ok (resolvedValues entry params)
  else Except.error (missingRequired entry params)

/-- Initial value of each input widget (`ParameterInputModal.compose`,
src/main.py, lines 117-127): the carried-over existing value when the
name is present, else the parameter default when truthy, else empty. -/
def prePopulate (existing : List (String × String)) (p : ScriptParameter) : String :=
  match lookupStr p.name existing with
  | some v => v
  | none => if p.default = "" then "" else p.default

/-- The three outcomes of the confirmation dialog
(`ConfirmationModal.on_key`, src/main.py, lines 212-221). -/
inductive ConfirmChoice
  | execute
  | retry
  | cancel

/-- Workflow positions reachable from the confirmation dialog in
`M365AdminTUI.collect_parameters_enhanced` (src/main.py, lines 679-706). -/
inductive WorkflowState
  | collecting (prepop : List (String × String))
  | executing (values : List (String × String))
  | cancelled
deriving DecidableEq

/-- Dispatch on the confirmation outcome in
`M365AdminTUI.collect_parameters_enhanced` (src/main.py, lines 685-699):
`execute` proceeds to execution with the confirmed values, `retry` stores
the just-entered values in `current_input_params` and re-enters the
collection modal with them as the pre-population, `cancel` abandons the
invocation. -/
def confirmStep (values : List (String × String)) : ConfirmChoice → WorkflowState
  | ConfirmChoice.execute => WorkflowState.executing values
  | ConfirmChoice.retry => WorkflowState.collecting values
  | ConfirmChoice.cancel => WorkflowState.cancelled

/-- Result of the `asyncio.create_subprocess_exec` call in
`M365AdminTUI.execute_script_direct` (src/main.py, lines 726-756), as the
surrounding code observes it: either the child ran to completion with an
exit code and the two accumulated line lists, or the spawn (or any later
await) raised an exception whose text is `msg`.  An unresolvable
interpreter binary is one instance of the second constructor: there is no
preflight path-resolution step in the code, the `FileNotFoundError`
raised by the spawn call itself is the only signal. -/
inductive SpawnOutcome
  | spawned (returncode : Int) (stdout_data stderr_data : List String)
  | spawnError (msg : String)

/-- Classified outcome of one invocation (src/main.py, lines 762-775). -/
inductive ExecOutcome
  | success (finalStdout : String)
  | failure (code : Int) (errText : String) (finalStdout : String)
  | caught (msg : String)
deriving DecidableEq

/-- The `error_text` diagnostic of a failed run (src/main.py, line 767):
the accumulated stderr when truthy, else the fixed fallback string. -/
def failure_message (stderr_data : List String) : String :=
  if String.join stderr_data ≠ "" then String.join stderr_data
  else "Script exited with error"

/-- Classification after the child completed (src/main.py, lines 756-770):
exit code 0 is success carrying the accumulated stdout; any other code is
failure carrying `error_text` and the accumulated stdout. -/
def classify_completion (returncode : Int) (stdout_data stderr_data : List String) :
    ExecOutcome :=
  if returncode = 0 then ExecOutcome.success (String.join stdout_data)
  else ExecOutcome.failure returncode (failure_message stderr_data) (String.join stdout_data)

/-- `M365AdminTUI.execute_script_direct` (src/main.py, lines 708-775)
from the spawn onward: a completed child is classified, and any exception
(including the interpreter binary not resolving on the search path) lands
in the single generic handler on lines 772-775, which surfaces
`"❌ Error executing script: " + str(e)`. -/
def execute_script_direct (so : SpawnOutcome) : ExecOutcome :=
  match so with
  | SpawnOutcome.spawned rc outD errD => classify_completion rc outD errD
  | SpawnOutcome.spawnError e => ExecOutcome.caught ("❌ Error executing script: " ++ e)

/-- Whether a child script process came into existence for this spawn
outcome: when `create_subprocess_exec` raises (e.g. the interpreter is not
on the search path), no child process was created. -/
def script_process_spawned : SpawnOutcome → Bool
  | SpawnOutcome.spawned _ _ _ => true
  | SpawnOutcome.spawnError _ => false

/-- The per-parameter argv extension loop of
`M365AdminTUI.execute_script_direct` (src/main.py, lines 714-715):
`cmd.extend([f"-{param_name}", param_value])` for each resolved pair. -/
def flagPairs : List (String × String) → List String
  | [] => []
  | (n, v) :: rest => ("-" ++ n) :: v :: flagPairs rest

/-- The full child argv (src/main.py, lines 713-715). -/
def build_cmd (scriptPath : String) (values : List (String × String)) : List String :=
  ["pwsh", "-NoProfile", "-NonInteractive", "-File", scriptPath] ++ flagPairs values

/-- Application state relevant to execution exclusivity.
`awaiting_input` is the guard flag of src/main.py, line 292 (initialised
`False` in `__init__` and never assigned anywhere else in the source);
`activeWorker` is the single workflow worker slot managed by the Textual
`@work(exclusive=True)` annotation on `run_script_workflow` (src/main.py,
line 651), whose documented semantics cancel any previous worker in the
group when a new one starts; `children` are the live child script
processes, which an `asyncio` task cancellation does not terminate. -/
structure AppState where
  awaiting_input : Bool
  activeWorker : Option Nat
  children : List Nat
  nextId : Nat
deriving DecidableEq

/-- State after `M365AdminTUI.__init__` (src/main.py, line 292). -/
def initState : AppState :=
  { awaiting_input := false, activeWorker := none, children := [], nextId := 0 }

/-- Events of the exclusivity model: an Enter keypress routed to
`action_execute_script`, the workflow worker reaching the
`create_subprocess_exec` call, and a child process exiting. -/
inductive UiEvent
  | executeIntent
  | spawnChild
  | childExit (c : Nat)

/-- One event step.  `executeIntent` follows
`M365AdminTUI.action_execute_script` (src/main.py, lines 428-445): it
returns early only when `awaiting_input` is set, and otherwise invokes
`run_script_workflow`, whose `exclusive=True` annotation replaces
(cancels) the previous worker; the cancellation neither terminates nor
reaps already-spawned child processes.  `spawnChild` adds a child while a
worker is active (src/main.py, lines 726-731).  `childExit` removes a
finished child. -/
def appStep (s : AppState) : UiEvent → AppState
  | UiEvent.executeIntent =>
    if s.awaiting_input then s
    else { s with activeWorker := some s.nextId, nextId := s.nextId + 1 }
  | UiEvent.spawnChild =>
    match s.activeWorker with
    | some _ => { s with children := s.nextId :: s.children, nextId := s.nextId + 1 }
    | none => s
  | UiEvent.childExit c => { s with children := s.children.filter (fun x => x ≠ c) }

/-- Run a list of events from a state. -/
def appRun : AppState → List UiEvent → AppState
  | s, [] => s
  | s, e :: rest => appRun (appStep s e) rest

/-! Concrete script texts and parameter lists used to instantiate the
theorems below. -/

/-- Script text with an explicit `Mandatory=$false` attribute and a
nonempty default (exercises explicit-wins-over-inference). -/
def c4content : String := "param(\n[Parameter(Mandatory=$false)][string]$Name = \"x\"\n)"

/-- The single raw section of `c4content` (also its whole param block). -/
def c4block : List Char := "\n[Parameter(Mandatory=$false)][string]$Name = \"x\"".toList

/-- The parameter extracted from `c4content`. -/
def c4param : ScriptParameter :=
  { name := "Name", prompt := "Name", default := "x", required := false, password := false }

/-- Script text with no mandatory attribute and a nonempty default. -/
def c5content : String := "param(\n[string]$Notes = \"n/a\"\n)"

/-- The single raw section of `c5content`. -/
def c5block : List Char := "\n[string]$Notes = \"n/a\"".toList

/-- The parameter extracted from `c5content`. -/
def c5param : ScriptParameter :=
  { name := "Notes", prompt := "Notes", default := "n/a", required := false, password := false }

/-- Script text declaring one plain string parameter. -/
def c6content : String := "param(\n[string]$Upn\n)"

/-- The parameter extracted from `c6content` (its prompt goes through the
abbreviation table). -/
def c6param : ScriptParameter :=
  { name := "Upn", prompt := "UPN (User Principal Name)", default := "",
    required := true, password := false }

/-- Script text declaring the same parameter name in two sections. -/
def c9content : String := "param(\n[string]$A,\n[string]$A\n)"

/-- Parameter list for the validation theorems: one required parameter
without default, one optional parameter with a default. -/
def c7params : List ScriptParameter :=
  [{ name := "UserPrincipalName", prompt := "User Principal Name (Email)", default := "",
     required := true, password := false },
   { name := "Notes", prompt := "Notes", default := "n/a", required := false, password := false }]

/-- Entry state in which every widget is empty. -/
def c7entry : String → String := fun _ => ""

/-- Parameter list for the retry round-trip theorem. -/
def c8params : List ScriptParameter :=
  [{ name := "TargetUserEmail", prompt := "Target User Email", default := "",
     required := true, password := false },
   { name := "MailboxType", prompt := "Mailbox Type (All, UserMailbox, SharedMailbox, etc.)",
     default := "All", required := false, password := false }]

/-- Entry state filling only the required field (with surrounding spaces). -/
def c8entry : String → String := fun n => if n = "TargetUserEmail" then " user@contoso.com " else ""

/-- The value map produced by submitting `c8entry` over `c8params`. -/
def c8values : List (String × String) :=
  [("TargetUserEmail", "user@contoso.com"), ("MailboxType", "All")]

/-- Parameter list for the argv theorem: the optional parameter has an
empty default and is left empty, so it must be omitted. -/
def c10params : List ScriptParameter :=
  [{ name := "DisplayName", prompt := "Display Name (Full Name)", default := "",
     required := true, password := false },
   { name := "UsageLocation", prompt := "Usage Location (2-letter country code)", default := "",
     required := false, password := false }]

/-- Entry state filling only the required field. -/
def c10entry : String → String := fun n => if n = "DisplayName" then "Alice Admin" else ""

/-- The value map produced by submitting `c10entry` over `c10params`. -/
def c10values : List (String × String) := [("DisplayName", "Alice Admin")]

/-! Theorems -/

/-- C1 (counterexample): a child that exits 1 with empty stderr and stdout
`"OK\n"` is classified as Failure, but its failure message is the fixed
string `"Script exited with error"`, not the accumulated standard-output
text as the claim states. -/
theorem c1_counterexample :
    classify_completion 1 ["OK\n"] [] =
      ExecOutcome.failure 1 "Script exited with error" "OK\n" ∧
    classify_completion 1 ["OK\n"] [] ≠
      ExecOutcome.failure 1 (String.join ["OK\n"]) (String.join ["OK\n"]) := by
  constructor
  · rfl
  · decide

/-- C1 (amended): exit code 0 is classified Success carrying the
accumulated stdout; any nonzero code is classified Failure whose message
is the accumulated stderr when that is nonempty, and otherwise the fixed
fallback string `"Script exited with error"` — never the accumulated
stdout (the stdout is displayed separately on the failure panel). -/
theorem c1_classification (rc : Int) (outD errD : List String) :
    (rc = 0 → classify_completion rc outD errD = ExecOutcome.success (String.join outD)) ∧
    (rc ≠ 0 → classify_completion rc outD errD =
        ExecOutcome.failure rc (failure_message errD) (String.join outD)) ∧
    (String.join errD ≠ "" → failure_message errD = String.join errD) ∧
    (String.join errD = "" → failure_message errD = "Script exited with error") := by
  refine ⟨?_, ?_, ?_, ?_⟩
  · intro h; simp [classify_completion, h]
  · intro h; simp [classify_completion, h]
  · intro h; simp [failure_message, h]
  · intro h; simp [failure_message, h]

/-- C1 (witness): the amended classification at exit code 1 with stderr
`"bad token\n"`. -/
theorem c1_classification_witness :
    (1 : Int) ≠ 0 ∧
    classify_completion 1 ["All good\n"] ["bad token\n"] =
      ExecOutcome.failure 1 (failure_message ["bad token\n"]) (String.join ["All good\n"]) :=
  ⟨by decide, (c1_classification 1 ["All good\n"] ["bad token\n"]).2.1 (by decide)⟩

/-- C2 (counterexample): when the interpreter binary does not resolve,
the spawn call raises and the invocation lands in the generic exception
handler: the surfaced text is `"❌ Error executing script: ..."`, which
carries no `InterpreterNotFound` error kind (and no remediation text) —
only the absence of a spawned process matches the claim. -/
theorem c2_counterexample :
    execute_script_direct
        (SpawnOutcome.spawnError "[Errno 2] No such file or directory: pwsh") =
      ExecOutcome.caught
        "❌ Error executing script: [Errno 2] No such file or directory: pwsh" ∧
    containsStr "❌ Error executing script: [Errno 2] No such file or directory: pwsh"
        "InterpreterNotFound" = false ∧
    script_process_spawned
        (SpawnOutcome.spawnError "[Errno 2] No such file or directory: pwsh") = false := by
  refine ⟨rfl, by decide, rfl⟩

/-- C2 (amended): there is no preflight interpreter resolution; any
exception the spawn raises — including an unresolvable interpreter — is
caught by the single generic handler and surfaced as
`"❌ Error executing script: <exception text>"`, with no specific error
kind and no remediation message, and no script process is spawned. -/
theorem c2_no_interpreter_preflight (e : String) :
    execute_script_direct (SpawnOutcome.spawnError e) =
      ExecOutcome.caught ("❌ Error executing script: " ++ e) ∧
    script_process_spawned (SpawnOutcome.spawnError e) = false :=
  ⟨rfl, rfl⟩

/-- Helper for C3: no event of the model ever changes `awaiting_input`
(the source assigns the flag exactly once, `False`, in `__init__`). -/
theorem appStep_awaiting (s : AppState) (e : UiEvent) :
    (appStep s e).awaiting_input = s.awaiting_input := by
  cases e with
  | executeIntent => by_cases h : s.awaiting_input <;> simp [appStep, h]
  | spawnChild => cases h : s.activeWorker <;> simp [appStep, h]
  | childExit c => rfl

/-- Helper for C3: `awaiting_input` is invariant along any event trace. -/
theorem appRun_awaiting (evs : List UiEvent) (s : AppState) :
    (appRun s evs).awaiting_input = s.awaiting_input := by
  induction evs generalizing s with
  | nil => rfl
  | cons e rest ih => rw [appRun, ih, appStep_awaiting]

/-- C3 (counterexample): starting from the initial state, the trace
execute → spawn → execute → spawn leaves two child script processes
running at once: the second execute intent is not refused (the
`awaiting_input` guard never fires), the exclusive worker annotation
merely cancels the first workflow worker, and the cancellation does not
terminate the already-spawned child. -/
theorem c3_counterexample :
    ¬ ((appRun initState
          [UiEvent.executeIntent, UiEvent.spawnChild,
           UiEvent.executeIntent, UiEvent.spawnChild]).children.length ≤ 1) := by
  decide

/-- C3 (amended): in every reachable state the `awaiting_input` guard is
down, so an execute intent is never refused: it always installs a fresh
workflow worker (cancelling and replacing the previous one — at most one
workflow worker is active at a time), and the replacement leaves every
already-running child process untouched, so child-process exclusivity is
not guaranteed. -/
theorem c3_execute_never_refused (evs : List UiEvent) :
    (appRun initState evs).awaiting_input = false ∧
    (appStep (appRun initState evs) UiEvent.executeIntent).activeWorker =
      some (appRun initState evs).nextId ∧
    (appStep (appRun initState evs) UiEvent.executeIntent).children =
      (appRun initState evs).children := by
  have h : (appRun initState evs).awaiting_input = false := appRun_awaiting evs initState
  refine ⟨h, ?_, ?_⟩ <;> simp [appStep, h]

/-- Inversion helper shared by the extractor theorems: a section that
produces a parameter matched the triple regex with a non-switch type, and
the produced parameter's fields are exactly the ones the loop body
builds. -/
theorem parseSection_some (sec : List Char) (p : ScriptParameter)
    (hp : parseSection sec = some p) :
    ∃ ty nm df, typeNameMatch (pyStrip sec) = some (ty, nm, df) ∧
      toLowerList ty ≠ "switch".toList ∧
      p = { name := String.mk nm
            prompt := paramNameToPrompt nm
            default := String.mk (pyStrip df)
            required :=
              match findMandatory (pyStrip sec) with
              | some w => decide (toLowerList w = "true".toList)
              | none => decide (pyStrip df = [])
            password := containsSub ("password".toList) (toLowerList nm) } := by
  unfold parseSection at hp
  split at hp
  · exact absurd hp (by simp)
  · split at hp
    · exact absurd hp (by simp)
    · split at hp
      · exact absurd hp (by simp)
      · rename_i ty nm df heq hsw
        exact ⟨ty, nm, df, heq, hsw, (Option.some.inj hp).symm⟩

/-- C4: for every parameter section of the script's param block that
carries an explicit mandatory attribute with a boolean literal, the
extracted parameter's `required` flag equals exactly that literal,
regardless of the section's default portion. -/
theorem c4_explicit_mandatory (content : String) (block sec w : List Char)
    (p : ScriptParameter)
    (hb : findParamBlock content.toList = some block)
    (hs : sec ∈ splitSections block)
    (hm : findMandatory (pyStrip sec) = some w)
    (hp : parseSection sec = some p) :
    (toLowerList w = "true".toList → p.required = true) ∧
    (toLowerList w = "false".toList → p.required = false) := by
  obtain ⟨ty, nm, df, htn, hsw, rfl⟩ := parseSection_some sec p hp
  constructor
  · intro h; simp [hm, h]
  · intro h; simp [hm, h]

/-- C4 (witness): the section of `c4content` carries `Mandatory=$false`
and a nonempty default `"x"`, and the extracted parameter is not
required. -/
theorem c4_explicit_mandatory_witness :
    findParamBlock c4content.toList = some c4block ∧
    c4block ∈ splitSections c4block ∧
    findMandatory (pyStrip c4block) = some ("false".toList) ∧
    parseSection c4block = some c4param ∧
    ((toLowerList ("false".toList) = "true".toList → c4param.required = true) ∧
     (toLowerList ("false".toList) = "false".toList → c4param.required = false)) := by
  have hb : findParamBlock c4content.toList = some c4block := by decide
  have hs : c4block ∈ splitSections c4block := by decide
  have hm : findMandatory (pyStrip c4block) = some ("false".toList) := by decide
  have hp : parseSection c4block = some c4param := by decide
  exact ⟨hb, hs, hm, hp,
    c4_explicit_mandatory c4content c4block c4block ("false".toList) c4param hb hs hm hp⟩

/-- C5: for every parameter section of the script's param block that
lacks an explicit mandatory attribute marker, the extracted parameter's
`required` flag holds iff the section's captured default portion is empty
after trimming whitespace. -/
theorem c5_inferred_required (content : String) (block sec ty nm df : List Char)
    (p : ScriptParameter)
    (hb : findParamBlock content.toList = some block)
    (hs : sec ∈ splitSections block)
    (hm : findMandatory (pyStrip sec) = none)
    (htn : typeNameMatch (pyStrip sec) = some (ty, nm, df))
    (hp : parseSection sec = some p) :
    p.required = true ↔ pyStrip df = [] := by
  obtain ⟨ty2, nm2, df2, htn2, hsw, rfl⟩ := parseSection_some sec p hp
  have h := htn2.symm.trans htn
  simp only [Option.some.injEq, Prod.mk.injEq] at h
  obtain ⟨rfl, rfl, rfl⟩ := h
  simp [hm]

/-- C5 (witness): the section of `c5content` has no mandatory marker and
default `"n/a"`, so the extracted parameter is not required. -/
theorem c5_inferred_required_witness :
    findParamBlock c5content.toList = some c5block ∧
    c5block ∈ splitSections c5block ∧
    findMandatory (pyStrip c5block) = none ∧
    typeNameMatch (pyStrip c5block) =
      some ("string".toList, "Notes".toList, "n/a".toList) ∧
    parseSection c5block = some c5param ∧
    (c5param.required = true ↔ pyStrip ("n/a".toList) = []) := by
  have hb : findParamBlock c5content.toList = some c5block := by decide
  have hs : c5block ∈ splitSections c5block := by decide
  have hm : findMandatory (pyStrip c5block) = none := by decide
  have htn : typeNameMatch (pyStrip c5block) =
      some ("string".toList, "Notes".toList, "n/a".toList) := by decide
  have hp : parseSection c5block = some c5param := by decide
  exact ⟨hb, hs, hm, htn, hp,
    c5_inferred_required c5content c5block c5block ("string".toList) ("Notes".toList)
      ("n/a".toList) c5param hb hs hm htn hp⟩

/-- C6: for every input script text, a section whose matched type
lowercases to `switch` is dropped entirely, and consequently every
parameter in the extracted list originates from a section whose matched
type is not the switch type — no switch-typed declaration ever appears in
a descriptor's parameter list. -/
theorem c6_switch_dropped (content : String) :
    (∀ sec ∈ paramSections content, ∀ ty nm df,
        typeNameMatch (pyStrip sec) = some (ty, nm, df) →
        toLowerList ty = "switch".toList → parseSection sec = none) ∧
    (∀ p ∈ extract_parameters content, ∃ sec ∈ paramSections content,
        parseSection sec = some p ∧
        ∀ ty nm df, typeNameMatch (pyStrip sec) = some (ty, nm, df) →
          toLowerList ty ≠ "switch".toList) := by
  constructor
  · intro sec _ ty nm df htn hsw
    simp [parseSection, htn, hsw]
  · intro p hp
    rw [extract_parameters, List.mem_filterMap] at hp
    obtain ⟨sec, hmem, hps⟩ := hp
    refine ⟨sec, hmem, hps, ?_⟩
    intro ty nm df htn hsw
    have hnone : parseSection sec = none := by simp [parseSection, htn, hsw]
    rw [hnone] at hps
    exact Option.noConfusion hps

/-- C6 (witness): `c6content` yields exactly the parameter `c6param`,
which originates from a non-switch section. -/
theorem c6_switch_dropped_witness :
    c6param ∈ extract_parameters c6content ∧
    (∃ sec ∈ paramSections c6content, parseSection sec = some c6param ∧
      ∀ ty nm df, typeNameMatch (pyStrip sec) = some (ty, nm, df) →
        toLowerList ty ≠ "switch".toList) :=
  ⟨by decide, (c6_switch_dropped c6content).2 c6param (by decide)⟩

/-- C9 (counterexample): the script text `c9content` declares the name
`A` in two sections, and the extracted parameter list carries the name
twice — parameter names are not pairwise distinct for every input text. -/
theorem c9_counterexample :
    (extract_parameters c9content).map (fun p => p.name) = ["A", "A"] ∧
    ¬ ((extract_parameters c9content).map (fun p => p.name)).Nodup := by
  exact ⟨by decide, by decide⟩

/-- C9 (amended): the extractor performs no deduplication — the extracted
names are exactly the per-section parsed names in order, so they are
pairwise distinct only when the successfully parsed sections declare
pairwise distinct names. -/
theorem c9_names_no_dedup (content : String) :
    (extract_parameters content).map (fun p => p.name) =
      (paramSections content).filterMap (fun sec => (parseSection sec).map (fun p => p.name)) := by
  rw [extract_parameters, List.map_filterMap]

/-- Helper for C7: the missing list is empty iff every required parameter
resolves to a nonempty value. -/
theorem missingRequired_eq_nil (entry : String → String) (params : List ScriptParameter) :
    missingRequired entry params = [] ↔
      ∀ p ∈ params, p.required = true → resolveValue entry p ≠ "" := by
  induction params with
  | nil => simp [missingRequired]
  | cons q rest ih =>
    by_cases h : resolveValue entry q = "" ∧ q.required = true
    · rw [missingRequired, if_pos h]
      simp only [List.forall_mem_cons]
      constructor
      · intro hc; exact absurd hc (by simp)
      · intro hc; exact absurd (hc.1 h.2) (by simp [h.1])
    · rw [missingRequired, if_neg h, ih]
      simp only [List.forall_mem_cons]
      constructor
      · intro hr; exact ⟨fun hreq hres => h ⟨hres, hreq⟩, hr⟩
      · intro hc; exact hc.2

/-- Helper for C7: the missing list is the in-order list of prompts of the
required parameters whose resolved value is empty. -/
theorem missingRequired_eq_filter (entry : String → String) (params : List ScriptParameter) :
    missingRequired entry params =
      (params.filter fun p => p.required && decide (resolveValue entry p = "")).map
        promptOrName := by
  induction params with
  | nil => rfl
  | cons q rest ih =>
    by_cases h1 : resolveValue entry q = "" <;> by_cases h2 : q.required = true <;>
      simp [missingRequired, List.filter_cons, h1, h2, ih]

/-- Helper for C7: the resolved value map is the in-order list of
(name, resolved value) pairs of the parameters whose resolved value is
nonempty. -/
theorem resolvedValues_eq_filter (entry : String → String) (params : List ScriptParameter) :
    resolvedValues entry params =
      (params.filter fun p => decide (resolveValue entry p ≠ "")).map
        (fun p => (p.name, resolveValue entry p)) := by
  induction params with
  | nil => rfl
  | cons q rest ih =>
    by_cases h : resolveValue entry q = "" <;>
      simp [resolvedValues, List.filter_cons, h, ih]

/-- C7: pressing Execute in the parameter modal succeeds (dismissing into
the confirmation step with the resolved value map) iff every required
parameter resolves to a nonempty value — the stripped entry, or the
parameter's default when the stripped entry is empty; otherwise the modal
returns without dismissing (no state change) and surfaces exactly the
in-order prompts of the missing required parameters. -/
theorem c7_submission_validation (entry : String → String) (params : List ScriptParameter)
    (hnd : (params.map fun p => p.name).Nodup) :
    ((∃ vs, validateSubmission entry params = Except.ok vs) ↔
       ∀ p ∈ params, p.required = true → resolveValue entry p ≠ "") ∧
    (∀ l, validateSubmission entry params = Except.error l →
       l ≠ [] ∧
       l = (params.filter fun p => p.required && decide (resolveValue entry p = "")).map
             promptOrName) ∧
    (∀ vs, validateSubmission entry params = Except.ok vs →
       vs = (params.filter fun p => decide (resolveValue entry p ≠ "")).map
              (fun p => (p.name, resolveValue entry p))) := by
  refine ⟨?_, ?_, ?_⟩
  · rw [← missingRequired_eq_nil entry params]
    constructor
    · rintro ⟨vs, hv⟩
      by_contra h
      rw [validateSubmission, if_neg h] at hv
      exact Except.noConfusion hv
    · intro h
      rw [validateSubmission, if_pos h]
      exact ⟨_, rfl⟩
  · intro l hv
    rw [validateSubmission] at hv
    split at hv
    · exact Except.noConfusion hv
    · rename_i hne
      have hl : missingRequired entry params = l := Except.error.inj hv
      refine ⟨?_, ?_⟩
      · rw [← hl]; exact hne
      · rw [← hl, missingRequired_eq_filter]
  · intro vs hv
    rw [validateSubmission] at hv
    split at hv
    · rw [← Except.ok.inj hv, resolvedValues_eq_filter]
    · exact Except.noConfusion hv

/-- C7 (witness): over `c7params` with all widgets empty, the submission
fails and surfaces the prompt of the one required parameter. -/
theorem c7_submission_validation_witness :
    (c7params.map fun p => p.name).Nodup ∧
    (((∃ vs, validateSubmission c7entry c7params = Except.ok vs) ↔
       ∀ p ∈ c7params, p.required = true → resolveValue c7entry p ≠ "") ∧
    (∀ l, validateSubmission c7entry c7params = Except.error l →
       l ≠ [] ∧
       l = (c7params.filter fun p => p.required && decide (resolveValue c7entry p = "")).map
             promptOrName) ∧
    (∀ vs, validateSubmission c7entry c7params = Except.ok vs →
       vs = (c7params.filter fun p => decide (resolveValue c7entry p ≠ "")).map
              (fun p => (p.name, resolveValue c7entry p)))) :=
  ⟨by decide, c7_submission_validation c7entry c7params (by decide)⟩

/-- Helper for C8/C10: a successful submission dismisses with exactly the
loop-built value map. -/
theorem validateSubmission_ok_eq (entry : String → String) (params : List ScriptParameter)
    (vs : List (String × String))
    (hv : validateSubmission entry params = Except.ok vs) :
    vs = resolvedValues entry params := by
  rw [validateSubmission] at hv
  split at hv
  · exact (Except.ok.inj hv).symm
  · exact Except.noConfusion hv

/-- Helper for C8/C10: the resolved value = empty exactly when both the
stripped entry and the default are empty. -/
theorem resolveValue_eq_empty (entry : String → String) (p : ScriptParameter) :
    resolveValue entry p = "" ↔ pyStripStr (entry p.name) = "" ∧ p.default = "" := by
  rw [resolveValue]
  by_cases h1 : pyStripStr (entry p.name) = "" <;> by_cases h2 : p.default = "" <;>
    simp [h1, h2]

/-- Helper for C8/C10: a name not declared by any listed parameter is
absent from the value map. -/
theorem lookupStr_resolvedValues_of_notMem (entry : String → String) (k : String) :
    ∀ l : List ScriptParameter, k ∉ l.map (fun p => p.name) →
      lookupStr k (resolvedValues entry l) = none := by
  intro l
  induction l with
  | nil => intro _; rfl
  | cons q rest ih =>
    intro hk
    rw [List.map_cons, List.mem_cons] at hk
    push_neg at hk
    rw [resolvedValues]
    split
    · exact ih hk.2
    · rw [lookupStr, if_neg (fun h => hk.1 h.symm)]
      exact ih hk.2

/-- Helper for C8/C10: under distinct parameter names, looking a
parameter's name up in the value map yields its resolved value exactly
when that value is nonempty, and nothing otherwise. -/
theorem lookupStr_resolvedValues (entry : String → String) :
    ∀ l : List ScriptParameter, (l.map (fun p => p.name)).Nodup →
      ∀ p ∈ l, lookupStr p.name (resolvedValues entry l) =
        if resolveValue entry p = "" then none else some (resolveValue entry p) := by
  intro l
  induction l with
  | nil => intro _ p hp; exact absurd hp (List.not_mem_nil p)
  | cons q rest ih =>
    intro hnd p hp
    rw [List.map_cons, List.nodup_cons] at hnd
    obtain ⟨hq, hrest⟩ := hnd
    rcases List.mem_cons.mp hp with rfl | hp2
    · rw [resolvedValues]
      split
      · exact lookupStr_resolvedValues_of_notMem entry p.name rest hq
      · rw [lookupStr, if_pos rfl]
    · have hne : q.name ≠ p.name :=
        fun he => hq (he ▸ List.mem_map_of_mem (fun p => p.name) hp2)
      rw [resolvedValues]
      split
      · exact ih hrest p hp2
      · rw [lookupStr, if_neg hne]
        exact ih hrest p hp2

/-- C8: round-trip of the retry path — after a validated submission, the
retry intent re-enters collection carrying the just-submitted map as the
pre-population, and the value each input widget shows on re-entry is
exactly the value that was just submitted for that parameter (the
parameters that were omitted from the map resolved to empty and are shown
empty again; the default fallback of the pre-population never replaces a
submitted value). -/
theorem c8_retry_round_trip (entry : String → String) (params : List ScriptParameter)
    (values : List (String × String))
    (hnd : (params.map fun p => p.name).Nodup)
    (hv : validateSubmission entry params = Except.ok values) :
    confirmStep values ConfirmChoice.retry = WorkflowState.collecting values ∧
    ∀ p ∈ params, prePopulate values p = resolveValue entry p := by
  obtain rfl := validateSubmission_ok_eq entry params values hv
  refine ⟨rfl, ?_⟩
  intro p hp
  rw [prePopulate, lookupStr_resolvedValues entry params hnd p hp]
  by_cases h : resolveValue entry p = ""
  · rw [if_pos h]
    obtain ⟨_, hd⟩ := (resolveValue_eq_empty entry p).mp h
    simp [hd, h.symm]
  · rw [if_neg h]

/-- C8 (witness): submitting `c8entry` over `c8params` and retrying
pre-populates each widget with exactly the submitted values. -/
theorem c8_retry_round_trip_witness :
    (c8params.map fun p => p.name).Nodup ∧
    validateSubmission c8entry c8params = Except.ok c8values ∧
    (confirmStep c8values ConfirmChoice.retry = WorkflowState.collecting c8values ∧
      ∀ p ∈ c8params, prePopulate c8values p = resolveValue c8entry p) := by
  have h1 : (c8params.map fun p => p.name).Nodup := by decide
  have h2 : validateSubmission c8entry c8params = Except.ok c8values := by rfl
  exact ⟨h1, h2, c8_retry_round_trip c8entry c8params c8values h1 h2⟩

/-- Helper for C10: every value in the loop-built map is nonempty. -/
theorem resolvedValues_snd_ne (entry : String → String) :
    ∀ (l : List ScriptParameter) nv, nv ∈ resolvedValues entry l → nv.2 ≠ "" := by
  intro l
  induction l with
  | nil => intro nv h; exact absurd h (List.not_mem_nil nv)
  | cons q rest ih =>
    intro nv h
    rw [resolvedValues] at h
    split at h
    · exact ih nv h
    · rename_i hq
      rcases List.mem_cons.mp h with rfl | h2
      · exact hq
      · exact ih nv h2

/-- Helper for C10: the element at odd offset `2*i+1` of the flag-pair
region is the value component of the `i`-th resolved pair. -/
theorem flagPairs_getElem (l : List (String × String)) :
    ∀ i, (flagPairs l)[2 * i + 1]? = (l[i]?).map (fun nv => nv.2) := by
  induction l with
  | nil => intro i; simp [flagPairs]
  | cons nv rest ih =>
    intro i
    cases i with
    | zero => simp [flagPairs]
    | succ j =>
      have harith : 2 * (j + 1) + 1 = (2 * j + 1) + 1 + 1 := by ring
      rw [harith, flagPairs]
      simp only [List.getElem?_cons_succ]
      exact ih j

/-- C10 (implicit): every value in a validated submission's map is a
nonempty string; a non-required parameter whose stripped entry is empty
and whose default is empty is omitted from the map entirely; and in the
child argv the element paired after each `-Name` flag (odd offset within
the flag-pair region) is never the empty string. -/
theorem c10_no_empty_flag_values (entry : String → String) (params : List ScriptParameter)
    (values : List (String × String)) (scriptPath : String)
    (hnd : (params.map fun p => p.name).Nodup)
    (hv : validateSubmission entry params = Except.ok values) :
    (∀ nv ∈ values, nv.2 ≠ "") ∧
    (∀ p ∈ params, p.required = false → pyStripStr (entry p.name) = "" → p.default = "" →
        lookupStr p.name values = none) ∧
    (build_cmd scriptPath values =
        ["pwsh", "-NoProfile", "-NonInteractive", "-File", scriptPath] ++ flagPairs values) ∧
    (∀ i v, (flagPairs values)[2 * i + 1]? = some v → v ≠ "") := by
  obtain rfl := validateSubmission_ok_eq entry params values hv
  refine ⟨fun nv h => resolvedValues_snd_ne entry params nv h, ?_, rfl, ?_⟩
  · intro p hp _ h1 h2
    rw [lookupStr_resolvedValues entry params hnd p hp,
      if_pos ((resolveValue_eq_empty entry p).mpr ⟨h1, h2⟩)]
  · intro i v hget
    rw [flagPairs_getElem] at hget
    cases hval : (resolvedValues entry params)[i]? with
    | none => rw [hval] at hget; exact Option.noConfusion hget
    | some nv =>
      rw [hval] at hget
      have hv2 : nv.2 = v := Option.some.inj hget
      rw [← hv2]
      exact resolvedValues_snd_ne entry params nv (List.getElem?_mem hval)

/-- C10 (witness): submitting `c10entry` over `c10params` omits the
optional empty parameter and produces an argv whose flag values are all
nonempty. -/
theorem c10_no_empty_flag_values_witness :
    (c10params.map fun p => p.name).Nodup ∧
    validateSubmission c10entry c10params = Except.ok c10values ∧
    ((∀ nv ∈ c10values, nv.2 ≠ "") ∧
     (∀ p ∈ c10params, p.required = false → pyStripStr (c10entry p.name) = "" →
        p.default = "" → lookupStr p.name c10values = none) ∧
     (build_cmd "UserOffboarding.ps1" c10values =
        ["pwsh", "-NoProfile", "-NonInteractive", "-File", "UserOffboarding.ps1"] ++
          flagPairs c10values) ∧
     (∀ i v, (flagPairs c10values)[2 * i + 1]? = some v → v ≠ "")) := by
  have h1 : (c10params.map fun p => p.name).Nodup := by decide
  have h2 : validateSubmission c10entry c10params = Except.ok c10values := by rfl
  exact ⟨h1, h2,
    c10_no_empty_flag_values c10entry c10params c10values "UserOffboarding.ps1" h1 h2⟩
